import Mathlib

/-!
# Verification of the car-parts catalog server (camrybusiness)

Shallow embedding of the three JavaScript variants in `src/`:

* `src/unnamed/part_001` — the full server: OAuth session, `POST /api/upload`,
  `GET /api/parts` (classification loop with image / details-named /
  plain-text branches, try/catch mapping failures to a single 500),
  `POST /api/delete` (soft delete via `trashed: true`).
* `src/server.js` — a read-only draft whose `/api/parts` uses
  `Array.prototype.find` for the image and `.txt` files.
* `src/unnamed/part_000` — a draft whose `listParts` omits the
  `trashed = false` filters and fetches content once per `text/plain` child.

Remote storage (Google Drive v3) is modelled as a list of entries plus a
content map; a `drive.files.list` call is modelled by `runListQuery`, which
applies the query's filter predicates server-side, preserving entry order.
-/

/-- A remote file/folder as the Drive API returns it with
`fields: 'files(id, name, mimeType)'`. -/
structure DriveFile where
  id : String
  name : String
  mimeType : String
  deriving Repr, DecidableEq

/-- A remote entry as stored by the provider: the listed attributes plus the
parent pointer and the `trashed` flag that list queries may filter on. -/
structure Entry where
  id : String
  name : String
  mimeType : String
  parent : String
  trashed : Bool
  deriving Repr, DecidableEq

/-- Projection of a stored entry to what `files.list` returns. -/
def Entry.toFile (e : Entry) : DriveFile :=
  ⟨e.id, e.name, e.mimeType⟩

/-- The MIME type Drive uses for folders, as written in all three variants'
query strings. -/
def folderMime : String := "application/vnd.google-apps.folder"

/-- A `drive.files.list` query, as assembled from the `q` string:
parent-equality (`'<id>' in parents`), an optional
`mimeType = 'application/vnd.google-apps.folder'` conjunct, and an optional
`trashed = false` conjunct. -/
structure ListQuery where
  parentId : String
  folderOnly : Bool
  nonTrashedOnly : Bool
  deriving Repr, DecidableEq

/-- Whether a stored entry satisfies a list query's filter predicates. -/
def matchesQuery (q : ListQuery) (e : Entry) : Bool :=
  e.parent == q.parentId
    && (!q.folderOnly || e.mimeType == folderMime)
    && (!q.nonTrashedOnly || !e.trashed)

/-- Remote storage state: the stored entries (in the provider's listing
order) and the text content served by `files.get(..., alt: 'media')`. -/
structure Remote where
  entries : List Entry
  content : String → String

/-- Semantics of `drive.files.list`: the entries matching the query, in listing order.
The filtering happens on the remote side, before results reach the client. -/
def runListQuery (rs : Remote) (q : ListQuery) : List Entry :=
  rs.entries.filter (fun e => matchesQuery q e)

/-! ## String operations used by the classification code

JavaScript's `String.prototype.startsWith`, `includes` and `toLowerCase`,
embedded as structurally recursive functions on the character list so that
concrete instances reduce by `decide`/`rfl`. -/

/-- Test `subAt pre cs`: whether `pre` is a prefix of `cs`. -/
def subAt : List Char → List Char → Bool
  | [], _ => true
  | _ :: _, [] => false
  | c :: cs, d :: ds => c == d && subAt cs ds

/-- Test `hasSubstr sub cs`: whether `sub` occurs contiguously in `cs`. -/
def hasSubstr (sub : List Char) : List Char → Bool
  | [] => subAt sub []
  | c :: cs => subAt sub (c :: cs) || hasSubstr sub cs

/-- JavaScript `s.startsWith(pre)`. -/
def strStartsWith (s pre : String) : Bool :=
  subAt pre.data s.data

/-- JavaScript `s.includes(sub)`. -/
def strIncludes (s sub : String) : Bool :=
  hasSubstr sub.data s.data

/-- JavaScript `s.toLowerCase()` (ASCII case, which covers the literal
`'details'` being searched for). -/
def strToLower (s : String) : String :=
  ⟨s.data.map Char.toLower⟩

/-! ## The classification pass of `GET /api/parts` in `part_001`

```js
for (const file of filesRes.data.files) {
  if (file.mimeType && file.mimeType.startsWith('image/')) {
    imageFile = file;
  } else if (file.name && file.name.toLowerCase().includes('details')) {
    detailsFile = file;
  } else if (file.mimeType === 'text/plain' && !detailsFile) {
    detailsFile = file;
  }
}
```

With `name`/`mimeType` modelled as strings, the JS truthiness guards
(`file.mimeType && …`, `file.name && …`) only exclude the empty string, on
which `startsWith('image/')` and `includes('details')` are false anyway, so
they are absorbed into the predicates. -/

/-- The test `file.mimeType.startsWith('image/')`. -/
def isImage (f : DriveFile) : Bool :=
  strStartsWith f.mimeType "image/"

/-- The test `file.name.toLowerCase().includes('details')`. -/
def isDetailsNamed (f : DriveFile) : Bool :=
  strIncludes (strToLower f.name) "details"

/-- The test `file.mimeType === 'text/plain'`. -/
def isPlainText (f : DriveFile) : Bool :=
  f.mimeType == "text/plain"

/-- The two mutable candidates of the classification loop
(`let imageFile = null; let detailsFile = null;`). -/
structure Classify where
  imageFile : Option DriveFile
  detailsFile : Option DriveFile
  deriving Repr, DecidableEq

/-- One iteration of the `for (const file of filesRes.data.files)` loop. -/
def classifyStep (st : Classify) (f : DriveFile) : Classify :=
  if isImage f then { st with imageFile := some f }
  else if isDetailsNamed f then { st with detailsFile := some f }
  else if isPlainText f && st.detailsFile.isNone then { st with detailsFile := some f }
  else st

/-- The whole classification loop, starting from `null`/`null`. -/
def classify (files : List DriveFile) : Classify :=
  files.foldl classifyStep ⟨none, none⟩

/-! ## `GET /api/parts` in `part_001` (success path) -/

/-- The root listing query of `part_001`:
`'${CARPARTS_FOLDER_ID}' in parents and mimeType = '…folder' and trashed = false`. -/
def rootQuery_part001 (rootId : String) : ListQuery :=
  ⟨rootId, true, true⟩

/-- The per-folder child listing query of `part_001`:
`'${f.id}' in parents and trashed = false`. -/
def childQuery_part001 (folderId : String) : ListQuery :=
  ⟨folderId, false, true⟩

/-- The record `parts.push({ id, name, imageUrl, details })` builds. -/
structure PartRecord where
  id : String
  name : String
  imageUrl : Option String
  details : String
  deriving Repr, DecidableEq

/-- The URL `https://drive.google.com/uc?id=${imageFile.id}`. -/
def imageUrlFor (fileId : String) : String :=
  "https://drive.google.com/uc?id=" ++ fileId

/-- The body of the per-folder iteration in `part_001`'s `/api/parts`:
list the folder's non-trashed children, classify them, fetch the details
candidate's content if one exists (`detailsText = ''` otherwise), and build
the record.  `content` always returns a string, matching the
`typeof txt.data === 'string'` branch. -/
def mkRecord_part001 (rs : Remote) (f : Entry) : PartRecord :=
  let files := (runListQuery rs (childQuery_part001 f.id)).map Entry.toFile
  let c := classify files
  let detailsText :=
    match c.detailsFile with
    | some d => rs.content d.id
    | none => ""
  { id := f.id
    name := f.name
    imageUrl := c.imageFile.map (fun i => imageUrlFor i.id)
    details := detailsText }

/-- Route `GET /api/parts` in `part_001`, success path: one record per folder
returned by the root listing, in that order. -/
def listParts_part001 (rs : Remote) (rootId : String) : List PartRecord :=
  (runListQuery rs (rootQuery_part001 rootId)).map (mkRecord_part001 rs)

/-! ## Remote-call traces

To state how many remote calls a handler performs, and which kind, each
handler has an instrumented twin returning the list of remote operations it
issues, in issue order. -/

/-- One remote Drive API call. -/
inductive RemoteCall where
  /-- A call `drive.files.list({ q, fields })`. -/
  | list : ListQuery → RemoteCall
  /-- A call `drive.files.get({ fileId, alt: 'media' })` — a content fetch. -/
  | get : String → RemoteCall
  /-- A call `drive.files.create` making a folder named `name` under `parent`. -/
  | createFolder : String → String → RemoteCall
  /-- A call `drive.files.create` making a file `name` under `parent` with a mimeType. -/
  | createFile : String → String → String → RemoteCall
  /-- A call `drive.files.update({ fileId, requestBody: { trashed: true } })`. -/
  | updateTrashed : String → RemoteCall
  /-- An irreversible `drive.files.delete` — issued by no handler in this
  repository; present so "never hard-deletes" is a statable property. -/
  | hardDelete : String → RemoteCall
  deriving Repr, DecidableEq

/-- Whether a remote call is a content fetch (`files.get(..., alt: 'media')`). -/
def RemoteCall.isGet : RemoteCall → Bool
  | .get _ => true
  | _ => false

/-- Instrumented per-folder body of `part_001`'s `/api/parts`: the record
together with the remote calls made for this folder (the child listing,
then the content fetch iff a details candidate was found). -/
def mkRecordT_part001 (rs : Remote) (f : Entry) : PartRecord × List RemoteCall :=
  let q := childQuery_part001 f.id
  let files := (runListQuery rs q).map Entry.toFile
  let c := classify files
  let fetches :=
    match c.detailsFile with
    | some d => [RemoteCall.get d.id]
    | none => []
  (mkRecord_part001 rs f, RemoteCall.list q :: fetches)

/-! ## `listParts` in `part_000`

```js
const res = await drive.files.list({
  q: `'${CARPARTS_FOLDER_ID}' in parents and mimeType = '…folder'`, … });
for (const folder of res.data.files) {
  const filesRes = await drive.files.list({ q: `'${folder.id}' in parents`, … });
  let imageUrl = ''; let detailsText = '';
  for (const file of filesRes.data.files) {
    if (file.mimeType.startsWith('image/')) {
      imageUrl = `https://drive.google.com/uc?id=${file.id}`;
    } else if (file.mimeType === 'text/plain') {
      const txt = await drive.files.get({ fileId: file.id, alt: 'media' });
      detailsText = txt.data;
    }
  }
  parts.push({ name: folder.name, image: imageUrl, details: detailsText });
}
```

Neither query has a `trashed = false` conjunct, and the content fetch sits
inside the loop, firing once per `text/plain` child. -/

/-- Query of `part_000`'s root listing: parent and folder-mime filters only. -/
def rootQuery_part000 (rootId : String) : ListQuery :=
  ⟨rootId, true, false⟩

/-- Query of `part_000`'s child listing: parent filter only. -/
def childQuery_part000 (folderId : String) : ListQuery :=
  ⟨folderId, false, false⟩

/-- The record `part_000` pushes: `{ name, image, details }` (no id; `image`
defaults to the empty string, not `null`). -/
structure P0Record where
  name : String
  image : String
  details : String
  deriving Repr, DecidableEq

/-- Loop state of `part_000`'s inner loop, with the trace of content
fetches issued so far. -/
structure P0State where
  imageUrl : String
  detailsText : String
  trace : List RemoteCall
  deriving Repr

/-- One iteration of `part_000`'s inner loop. -/
def p0Step (rs : Remote) (st : P0State) (f : DriveFile) : P0State :=
  if isImage f then { st with imageUrl := imageUrlFor f.id }
  else if isPlainText f then
    { st with detailsText := rs.content f.id, trace := st.trace ++ [RemoteCall.get f.id] }
  else st

/-- Instrumented per-folder body of `part_000`'s `listParts`. -/
def mkRecordT_part000 (rs : Remote) (f : Entry) : P0Record × List RemoteCall :=
  let q := childQuery_part000 f.id
  let files := (runListQuery rs q).map Entry.toFile
  let st := files.foldl (p0Step rs) ⟨"", "", []⟩
  (⟨f.name, st.imageUrl, st.detailsText⟩, RemoteCall.list q :: st.trace)

/-- Function `listParts` in `part_000` (success path). -/
def listParts_part000 (rs : Remote) (rootId : String) : List P0Record :=
  (runListQuery rs (rootQuery_part000 rootId)).map
    (fun f => (mkRecordT_part000 rs f).1)

/-! ## Failure-injected `GET /api/parts` (`part_001`)

The whole handler body sits in one `try`; the `catch` sends
`res.status(500).json({ error: 'Failed to list parts', details: err.message })`.
Remote operations are injected as `Except String`-valued functions, a
failure carrying the upstream error message. -/

/-- Remote storage whose operations can fail. -/
structure RemoteF where
  listFiles : ListQuery → Except String (List Entry)
  getContent : String → Except String String

/-- Per-folder body with failure propagation: the child listing and (when a
details candidate exists) the content fetch may each throw. -/
def mkRecordE_part001 (rm : RemoteF) (f : Entry) : Except String PartRecord := do
  let es ← rm.listFiles (childQuery_part001 f.id)
  let c := classify (es.map Entry.toFile)
  let detailsText ←
    match c.detailsFile with
    | some d => rm.getContent d.id
    | none => pure ""
  pure { id := f.id
         name := f.name
         imageUrl := c.imageFile.map (fun i => imageUrlFor i.id)
         details := detailsText }

/-- The aggregation inside the `try` block: root listing, then the
per-folder bodies in order; the first failure aborts everything. -/
def listPartsE_part001 (rm : RemoteF) (rootId : String) :
    Except String (List PartRecord) := do
  let folders ← rm.listFiles (rootQuery_part001 rootId)
  folders.mapM (mkRecordE_part001 rm)

/-- An HTTP response of the `/api/parts` route: `res.json(parts)` on
success, `res.status(500).json({ …, details: err.message })` on a caught
error. -/
inductive PartsResponse where
  | json : List PartRecord → PartsResponse
  | error : Nat → String → PartsResponse
  deriving Repr, DecidableEq

/-- The whole `GET /api/parts` handler of `part_001`: try/catch around the
aggregation. -/
def handleParts_part001 (rm : RemoteF) (rootId : String) : PartsResponse :=
  match listPartsE_part001 rm rootId with
  | .ok parts => .json parts
  | .error m => .error 500 m

/-! ## Failure-injected `listParts` and route of `part_000`

`part_000`'s route is

```js
app.get('/api/parts', async (req, res) => {
  res.json(await listParts());
});
```

with no `try`/`catch` anywhere: a failing `await` inside `listParts`
rejects the handler's promise, the route never reaches `res.json`, and no
application code maps the error to an HTTP 500 (`res.status(500)` does not
occur in `part_000`). -/

/-- Inner-loop step of `part_000`'s `listParts` with failure propagation:
the per-`text/plain`-child `drive.files.get` may throw. State is
`(imageUrl, detailsText)`. -/
def p0StepE (rm : RemoteF) (st : String × String) (f : DriveFile) :
    Except String (String × String) :=
  if isImage f then pure (imageUrlFor f.id, st.2)
  else if isPlainText f then do
    let txt ← rm.getContent f.id
    pure (st.1, txt)
  else pure st

/-- Per-folder body of `part_000`'s `listParts` with failure propagation. -/
def mkRecordE_part000 (rm : RemoteF) (f : Entry) : Except String P0Record := do
  let es ← rm.listFiles (childQuery_part000 f.id)
  let st ← (es.map Entry.toFile).foldlM (p0StepE rm) ("", "")
  pure ⟨f.name, st.1, st.2⟩

/-- Function `listParts` of `part_000` with failure propagation: the first
failing remote call rejects the whole promise. -/
def listPartsE_part000 (rm : RemoteF) (rootId : String) :
    Except String (List P0Record) := do
  let folders ← rm.listFiles (rootQuery_part000 rootId)
  folders.mapM (mkRecordE_part000 rm)

/-- Outcome of `part_000`'s `/api/parts` route: either a JSON body was
sent, or the awaited `listParts()` rejected and — the route having no
`try`/`catch` — the application sent no response at all (in particular no
500 carrying the error message). -/
inductive P0RouteOutcome where
  /-- Result of `res.json(parts)`. -/
  | json : List P0Record → P0RouteOutcome
  /-- The rejection escaped the handler unhandled; no response was sent by
  application code. -/
  | unhandledRejection : String → P0RouteOutcome
  deriving Repr, DecidableEq

/-- Route `GET /api/parts` of `part_000`: no catch around the aggregation. -/
def handleParts_part000 (rm : RemoteF) (rootId : String) : P0RouteOutcome :=
  match listPartsE_part000 rm rootId with
  | .ok parts => .json parts
  | .error m => .unhandledRejection m

/-! ## The `find`-based selection of `src/server.js`

```js
let imageFile = files.data.files.find(f => f.mimeType.startsWith('image/'));
```

This draft alone takes the FIRST image-typed child. -/

/-- Selection of the image file in `server.js`:
`files.find(f => f.mimeType.startsWith('image/'))`. -/
def imageFile_serverJs (files : List DriveFile) : Option DriveFile :=
  files.find? (fun f => isImage f)

/-! ## JavaScript truthiness of request fields

`if (!partName)`, `if (details)`, `if (!folderId)`, `mimetype || 'image/jpeg'`:
a possibly-absent string field is falsy exactly when it is absent or the
empty string. -/

/-- Truthiness of a possibly-absent string (JS: `undefined` and `''` are
falsy, every other string is truthy — including whitespace-only strings). -/
def truthyStr : Option String → Bool
  | none => false
  | some s => !(s == "")

/-! ## `POST /api/upload` in `part_001`

```js
const { partName, details } = req.body;
if (!partName) return res.status(400).json({ error: 'partName required' });
// 1) create folder under CARPARTS_FOLDER_ID
// 2) if (req.file) upload it with mimeType = req.file.mimetype || 'image/jpeg'
// 3) if (details) upload 'details.txt' as text/plain
res.json({ success: true, folderId });
```
-/

/-- A multer in-memory upload (`req.file`): original file name and reported
mimeType (the empty string standing for a falsy/absent `mimetype`). -/
structure UploadFile where
  originalname : String
  mimetype : String
  deriving Repr, DecidableEq

/-- The request body and file of `POST /api/upload`. -/
structure UploadReq where
  partName : Option String
  details : Option String
  file : Option UploadFile
  deriving Repr, DecidableEq

/-- Response of `POST /api/upload`: `400 { error }` or
`200 { success: true, folderId }`. -/
inductive UploadResponse where
  | badRequest : String → UploadResponse
  | success : String → UploadResponse
  deriving Repr, DecidableEq

/-- The `POST /api/upload` handler. `newFolderId` is the id the remote
assigns to the folder created in step 1 (`folder.data.id`); the returned
trace lists the remote writes, in issue order. -/
def handleUpload_part001 (root newFolderId : String) (req : UploadReq) :
    UploadResponse × List RemoteCall :=
  if truthyStr req.partName then
    let name := req.partName.getD ""
    let imgOps :=
      match req.file with
      | some fl =>
          [RemoteCall.createFile fl.originalname newFolderId
            (if fl.mimetype == "" then "image/jpeg" else fl.mimetype)]
      | none => []
    let detOps :=
      if truthyStr req.details then
        [RemoteCall.createFile "details.txt" newFolderId "text/plain"]
      else []
    (.success newFolderId, RemoteCall.createFolder name root :: (imgOps ++ detOps))
  else
    (.badRequest "partName required", [])

/-! ## `POST /api/delete` in `part_001`

```js
const { folderId } = req.body;
if (!folderId) return res.status(400).json({ error: 'folderId required' });
await drive.files.update({ fileId: folderId, requestBody: { trashed: true } });
res.json({ success: true });
```

The catch maps a remote rejection to
`res.status(500).json({ error: 'Failed to delete', details: err.message })`. -/

/-- Response of `POST /api/delete`: `400 { error }`, `200 { success: true }`
or `500 { …, details }`. -/
inductive DeleteResponse where
  | badRequest : String → DeleteResponse
  | success : DeleteResponse
  | failure : String → DeleteResponse
  deriving Repr, DecidableEq

/-- The `POST /api/delete` handler. `update` is the remote's answer to the
metadata update (`drive.files.update` setting `trashed: true`); the trace
records the update call, which is attempted whether or not it is accepted. -/
def handleDelete_part001 (folderId : Option String)
    (update : String → Except String Unit) : DeleteResponse × List RemoteCall :=
  if truthyStr folderId then
    let fid := folderId.getD ""
    match update fid with
    | .ok _ => (.success, [RemoteCall.updateTrashed fid])
    | .error m => (.failure m, [RemoteCall.updateTrashed fid])
  else
    (.badRequest "folderId required", [])

/-! ## Spec-side candidate functions

These render the (amended) spec wording for the classification outcome, to
be compared with the loop `classify` embedded from the source. -/

/-- The last element of the list satisfying `p`, if any. -/
def lastWith (p : DriveFile → Bool) (files : List DriveFile) : Option DriveFile :=
  files.reverse.find? p

/-- Spec-side image candidate: the last image-typed child in listing order
(each later image match overwrites the earlier in the source loop). -/
def imageCandidateSpec (files : List DriveFile) : Option DriveFile :=
  lastWith (fun f => isImage f) files

/-- The predicate of the loop's second branch: a non-image child whose name
contains `details` case-insensitively. -/
def namedPred (f : DriveFile) : Bool :=
  !isImage f && isDetailsNamed f

/-- The predicate of the loop's third branch: a non-image, non-details-named
`text/plain` child. -/
def plainPred (f : DriveFile) : Bool :=
  !isImage f && !isDetailsNamed f && isPlainText f

/-- Spec-side details candidate: prefer a (non-image) details-named child —
the last one in listing order — and otherwise fall back to the first
plain-text child not claimed by an earlier rule. -/
def detailsCandidateSpec (files : List DriveFile) : Option DriveFile :=
  (lastWith namedPred files).or (files.find? plainPred)

/-- A remote state with the trashed entries erased. A handler whose list
queries all filter on `trashed = false` cannot distinguish `rs` from
`eraseTrashed rs`: the exclusion happens in the enumeration query. -/
def eraseTrashed (rs : Remote) : Remote :=
  ⟨rs.entries.filter (fun e => !e.trashed), rs.content⟩

/-! ## Concrete remote states and inputs used in the closed theorems -/

/-- A content map serving the empty string everywhere. -/
def emptyContent : String → String := fun _ => ""

/-- A root with one part folder holding two image-typed children, `img1`
listed before `img2`. -/
def rsTwoImages : Remote :=
  ⟨[⟨"p1", "Part", folderMime, "root", false⟩,
    ⟨"img1", "a.png", "image/png", "p1", false⟩,
    ⟨"img2", "b.png", "image/jpeg", "p1", false⟩], emptyContent⟩

/-- A root whose only child folder is trashed. -/
def rsTrashedFolder : Remote :=
  ⟨[⟨"f1", "Trashed part", folderMime, "root", true⟩], emptyContent⟩

/-- Children where the only details-named child is image-typed and the only
plain-text child is not details-named. -/
def filesImageNamedDetails : List DriveFile :=
  [⟨"i1", "details.png", "image/png"⟩, ⟨"t1", "notes.txt", "text/plain"⟩]

/-- A root with one part folder holding two `text/plain` children. -/
def rsTwoTexts : Remote :=
  ⟨[⟨"p1", "Part", folderMime, "root", false⟩,
    ⟨"t1", "a.txt", "text/plain", "p1", false⟩,
    ⟨"t2", "b.txt", "text/plain", "p1", false⟩], emptyContent⟩

/-- The part folder of `rsTwoTexts`, as the root listing returns it. -/
def entryTwoTexts : Entry := ⟨"p1", "Part", folderMime, "root", false⟩

/-- A root with one part folder that has no children. -/
def rsEmptyFolder : Remote :=
  ⟨[⟨"p1", "Empty", folderMime, "root", false⟩], emptyContent⟩

/-- The childless part folder of `rsEmptyFolder`. -/
def entryEmptyFolder : Entry := ⟨"p1", "Empty", folderMime, "root", false⟩

/-- A root with one part folder holding one plain-text child — used with a
failing content fetch. -/
def rsOneText : Remote :=
  ⟨[⟨"p1", "Part", folderMime, "root", false⟩,
    ⟨"t1", "notes.txt", "text/plain", "p1", false⟩], emptyContent⟩

/-- A fallible remote whose listings answer from `rsOneText` but whose
content fetches all fail with the upstream message `disk failure`. -/
def rmFetchFails : RemoteF :=
  ⟨fun q => .ok (runListQuery rsOneText q), fun _ => .error "disk failure"⟩

/-- Children where an image-typed child is named `details.png`. -/
def filesC10 : List DriveFile :=
  [⟨"i1", "details.png", "image/png"⟩, ⟨"t9", "readme.txt", "text/plain"⟩]

/-- The plain-text child of `filesC10`. -/
def fileC10 : DriveFile := ⟨"t9", "readme.txt", "text/plain"⟩

/-- A remote-update stub that accepts every metadata update. -/
def updateAccepts : String → Except String Unit := fun _ => .ok ()

/-- A fallible remote whose every operation fails with the upstream
message `boom`. -/
def rmAllFail : RemoteF :=
  ⟨fun _ => .error "boom", fun _ => .error "boom"⟩

/-! ## Characterisation of the classification loop -/

lemma lastWith_nil (p : DriveFile → Bool) : lastWith p [] = none := rfl

lemma lastWith_cons (p : DriveFile → Bool) (f : DriveFile) (fs : List DriveFile) :
    lastWith p (f :: fs) = (lastWith p fs).or (if p f then some f else none) := by
  unfold lastWith
  rw [List.reverse_cons, List.find?_append]
  cases hp : p f <;> simp [List.find?, hp]

lemma classifyStep_imageFile (st : Classify) (f : DriveFile) :
    (classifyStep st f).imageFile =
      if isImage f then some f else st.imageFile := by
  unfold classifyStep
  cases hI : isImage f
  · simp only [Bool.false_eq_true, if_false]
    split
    · rfl
    · split <;> rfl
  · rfl

lemma classifyStep_detailsFile (st : Classify) (f : DriveFile) :
    (classifyStep st f).detailsFile =
      if isImage f then st.detailsFile
      else if isDetailsNamed f then some f
      else if isPlainText f && st.detailsFile.isNone then some f
      else st.detailsFile := by
  unfold classifyStep
  split
  · simp_all
  · split
    · simp_all
    · split <;> simp_all

lemma foldl_imageFile (files : List DriveFile) :
    ∀ st : Classify,
      (files.foldl classifyStep st).imageFile =
        (imageCandidateSpec files).or st.imageFile := by
  induction files with
  | nil => intro st; simp [imageCandidateSpec, lastWith_nil]
  | cons f fs ih =>
    intro st
    rw [List.foldl_cons, ih]
    simp only [imageCandidateSpec]
    rw [lastWith_cons, Option.or_assoc, classifyStep_imageFile]
    cases hI : isImage f <;> simp [Option.or_some, Option.none_or]

lemma foldl_detailsFile (files : List DriveFile) :
    ∀ st : Classify,
      (files.foldl classifyStep st).detailsFile =
        (lastWith namedPred files).or
          (st.detailsFile.or (files.find? plainPred)) := by
  induction files with
  | nil => intro st; simp [lastWith_nil]
  | cons f fs ih =>
    intro st
    rw [List.foldl_cons, ih, lastWith_cons, classifyStep_detailsFile,
      List.find?_cons]
    cases hI : isImage f
    · cases hN : isDetailsNamed f
      · cases hP : isPlainText f
        · simp [namedPred, plainPred, hI, hN, hP, Option.or_assoc,
            Option.or_some, Option.none_or]
        · -- plain-text branch: depends on whether a candidate is already set
          rcases hD : st.detailsFile with _ | x <;>
            simp [namedPred, plainPred, hI, hN, hP, hD, Option.or_assoc,
              Option.or_some, Option.none_or]
      · simp [namedPred, plainPred, hI, hN, Option.or_assoc,
          Option.or_some, Option.none_or]
    · simp [namedPred, plainPred, hI, Option.or_assoc, Option.or_some,
        Option.none_or]

/-- The classification loop's final image candidate is the last image-typed
child in listing order. -/
lemma classify_imageFile_eq (files : List DriveFile) :
    (classify files).imageFile = imageCandidateSpec files := by
  rw [classify, foldl_imageFile]
  simp [Option.or_none]

/-- The classification loop's final details candidate: the last non-image
details-named child, or else the first non-image non-details-named
plain-text child. -/
lemma classify_detailsFile_eq (files : List DriveFile) :
    (classify files).detailsFile = detailsCandidateSpec files := by
  rw [classify, foldl_detailsFile, detailsCandidateSpec]
  simp [Option.none_or]

/-! ## Queries filtering on `trashed = false` cannot see trashed entries -/

lemma matchesQuery_of_trashed (q : ListQuery) (e : Entry)
    (hq : q.nonTrashedOnly = true) (he : e.trashed = true) :
    matchesQuery q e = false := by
  simp [matchesQuery, hq, he]

lemma filter_erase_aux (q : ListQuery) (hq : q.nonTrashedOnly = true) :
    ∀ l : List Entry,
      (l.filter (fun e => !e.trashed)).filter (fun e => matchesQuery q e) =
        l.filter (fun e => matchesQuery q e) := by
  intro l
  induction l with
  | nil => rfl
  | cons e es ih =>
    cases ht : e.trashed
    · simp [List.filter_cons, ht, ih]
    · simp [List.filter_cons, ht, matchesQuery_of_trashed q e hq ht, ih]

lemma runListQuery_eraseTrashed (rs : Remote) (q : ListQuery)
    (hq : q.nonTrashedOnly = true) :
    runListQuery (eraseTrashed rs) q = runListQuery rs q := by
  unfold runListQuery eraseTrashed
  exact filter_erase_aux q hq rs.entries

lemma mkRecord_part001_eraseTrashed (rs : Remote) (f : Entry) :
    mkRecord_part001 (eraseTrashed rs) f = mkRecord_part001 rs f := by
  unfold mkRecord_part001
  rw [runListQuery_eraseTrashed rs (childQuery_part001 f.id) rfl]
  rfl

lemma listParts_part001_eraseTrashed (rs : Remote) (rootId : String) :
    listParts_part001 (eraseTrashed rs) rootId = listParts_part001 rs rootId := by
  unfold listParts_part001
  rw [runListQuery_eraseTrashed rs (rootQuery_part001 rootId) rfl,
    show mkRecord_part001 (eraseTrashed rs) = mkRecord_part001 rs from
      funext (mkRecord_part001_eraseTrashed rs)]

/-! ## Claim theorems -/

/-- C1, counterexample: in `part_001`'s `/api/parts`, a folder whose
children list two image-typed files `img1` (first) and `img2` (second)
yields a record whose `imageUrl` is built from `img2` — the LAST image
child, not the first as the claim states. -/
theorem c1_counterexample :
    listParts_part001 rsTwoImages "root" =
      [{ id := "p1", name := "Part",
         imageUrl := some "https://drive.google.com/uc?id=img2", details := "" }]
    ∧ ("https://drive.google.com/uc?id=img2" : String) ≠ imageUrlFor "img1" := by
  decide

/-- C1, amended: for every part folder, `part_001`'s record builder takes
as image candidate the LAST child whose content-type starts with `image/`
(each later image match overwrites the earlier), and `imageUrl` is built
from that child's identifier. -/
theorem c1_image_candidate_is_last (rs : Remote) (f : Entry) :
    (mkRecord_part001 rs f).imageUrl =
      (imageCandidateSpec
          ((runListQuery rs (childQuery_part001 f.id)).map Entry.toFile)).map
        (fun i => imageUrlFor i.id) := by
  simp only [mkRecord_part001]
  rw [classify_imageFile_eq]

/-- C2, counterexample: `part_000`'s `listParts` queries carry no
`trashed = false` filter, so a folder marked trashed still appears in its
output. -/
theorem c2_counterexample :
    listParts_part000 rsTrashedFolder "root" =
      [{ name := "Trashed part", image := "", details := "" }]
    ∧ rsTrashedFolder.entries.map (fun e => e.trashed) = [true] := by
  decide

/-- C2, amended: in `part_001`'s `/api/parts` handler the exclusion of
trashed folders is enforced by the enumeration queries — both the root
listing and every per-folder child listing set `trashed = false`, so
erasing all trashed entries from the remote state does not change the
output (trashed entries are invisible, with no client-side filtering).
`part_000`'s `listParts` variant omits the filter and does not exclude
trashed folders. -/
theorem c2_part001_trashed_invisible (rs : Remote) (rootId : String) :
    listParts_part001 (eraseTrashed rs) rootId = listParts_part001 rs rootId
    ∧ (rootQuery_part001 rootId).nonTrashedOnly = true
    ∧ ∀ folderId, (childQuery_part001 folderId).nonTrashedOnly = true :=
  ⟨listParts_part001_eraseTrashed rs rootId, rfl, fun _ => rfl⟩

/-- C3, counterexample: a whitespace-only part name (`' '`) is truthy in
JavaScript, so `POST /api/upload` does NOT fail with 400 — it succeeds and
performs a remote write creating a folder named `' '`. -/
theorem c3_counterexample :
    handleUpload_part001 "root" "nf1" ⟨some " ", none, none⟩ =
      (.success "nf1", [RemoteCall.createFolder " " "root"])
    ∧ (handleUpload_part001 "root" "nf1" ⟨some " ", none, none⟩).2 ≠ [] := by
  decide

/-- C3, amended: when the part name is missing or the empty string (the
JS-falsy cases checked by `if (!partName)`), `POST /api/upload` fails with
400 `partName required` and performs no remote writes; a whitespace-only
name is not rejected. -/
theorem c3_upload_rejects_empty_name (root newFolderId : String)
    (req : UploadReq) (h : req.partName = none ∨ req.partName = some "") :
    handleUpload_part001 root newFolderId req =
      (.badRequest "partName required", []) := by
  have ht : truthyStr req.partName = false := by
    rcases h with h | h <;> simp [truthyStr, h]
  simp [handleUpload_part001, ht]

/-- C3, witness: the empty-name request is rejected with 400 and an empty
write trace. -/
theorem c3_witness :
    handleUpload_part001 "root" "nf" ⟨some "", none, none⟩ =
      (.badRequest "partName required", []) :=
  c3_upload_rejects_empty_name "root" "nf" ⟨some "", none, none⟩ (Or.inr rfl)

/-- C4, counterexample: with children `details.png` (image-typed, name
contains `details`) then `notes.txt` (plain text, name does not contain
`details`), the details candidate is `notes.txt` — a details-named child
exists but is NOT preferred, because image-typed children are claimed by
the image branch first. -/
theorem c4_counterexample :
    (classify filesImageNamedDetails).detailsFile =
      some ⟨"t1", "notes.txt", "text/plain"⟩
    ∧ isDetailsNamed ⟨"i1", "details.png", "image/png"⟩ = true
    ∧ isDetailsNamed ⟨"t1", "notes.txt", "text/plain"⟩ = false := by
  decide

/-- C4, amended: for every part folder, the details candidate is the last
NON-IMAGE child whose name contains the case-insensitive substring
`details`; if no such child exists, it is the first non-image,
non-details-named `text/plain` child; if neither exists there is no
candidate and the record's `details` field is the empty string (otherwise
it is the fetched content). -/
theorem c4_details_candidate (rs : Remote) (f : Entry) :
    (classify ((runListQuery rs (childQuery_part001 f.id)).map Entry.toFile)).detailsFile
        = detailsCandidateSpec
            ((runListQuery rs (childQuery_part001 f.id)).map Entry.toFile)
    ∧ (mkRecord_part001 rs f).details =
        (match detailsCandidateSpec
            ((runListQuery rs (childQuery_part001 f.id)).map Entry.toFile) with
          | some d => rs.content d.id
          | none => "") := by
  refine ⟨classify_detailsFile_eq _, ?_⟩
  simp only [mkRecord_part001]
  rw [classify_detailsFile_eq]

/-- C5, counterexample: `part_000`'s `listParts` fetches content inside the
classification loop, once per `text/plain` child: a folder with two
`text/plain` children triggers two content-fetch remote calls. -/
theorem c5_counterexample :
    ((mkRecordT_part000 rsTwoTexts entryTwoTexts).2.countP
      (fun c => c.isGet)) = 2 := by
  decide

/-- C5, amended: in `part_001`'s `/api/parts`, each part folder causes at
most one content-fetch remote call — exactly one when a details candidate
was found and zero otherwise, never one per matching file. (`part_000`'s
`listParts` variant instead fetches once per `text/plain` child.) -/
theorem c5_part001_at_most_one_fetch (rs : Remote) (f : Entry) :
    ((mkRecordT_part001 rs f).2.countP (fun c => c.isGet)) ≤ 1
    ∧ ((mkRecordT_part001 rs f).2.countP (fun c => c.isGet)) =
        (if (classify ((runListQuery rs (childQuery_part001 f.id)).map
              Entry.toFile)).detailsFile.isSome
          then 1 else 0) := by
  rcases h : (classify ((runListQuery rs (childQuery_part001 f.id)).map
      Entry.toFile)).detailsFile with _ | d <;>
    simp [mkRecordT_part001, h, List.countP_cons, RemoteCall.isGet]

/-- C6: a folder with zero children yields a record with `imageUrl = none`
and `details = ""`, and that record is emitted in the output of
`part_001`'s `/api/parts` — absence of image/details files does not abort
the record. -/
theorem c6_empty_folder_record (rs : Remote) (rootId : String) (f : Entry)
    (hf : f ∈ runListQuery rs (rootQuery_part001 rootId))
    (hc : runListQuery rs (childQuery_part001 f.id) = []) :
    ({ id := f.id, name := f.name, imageUrl := none, details := "" } : PartRecord)
      ∈ listParts_part001 rs rootId := by
  have hr : mkRecord_part001 rs f =
      { id := f.id, name := f.name, imageUrl := none, details := "" } := by
    simp [mkRecord_part001, hc, classify]
  rw [← hr]
  simp only [listParts_part001]
  exact List.mem_map_of_mem _ hf

/-- C6, witness: a concrete childless folder produces the
`none`-image empty-details record. -/
theorem c6_witness :
    ({ id := "p1", name := "Empty", imageUrl := none, details := "" } : PartRecord)
      ∈ listParts_part001 rsEmptyFolder "root" :=
  c6_empty_folder_record rsEmptyFolder "root" entryEmptyFolder
    (by decide) (by decide)

/-- C7, counterexample: `part_000`'s `/api/parts` route has no
`try`/`catch`, so when the root enumeration fails with `boom` the request
does NOT fail with a 500 carrying the upstream message — the rejection
escapes the handler and the application sends no response at all, refuting
the claim for this cited variant. -/
theorem c7_counterexample :
    handleParts_part000 rmAllFail "root" =
      P0RouteOutcome.unhandledRejection "boom" := by
  rfl

/-- C7, amended: in `part_001`'s `/api/parts` handler (the strict mode the
spec documents), when the aggregation inside the `try` fails (root
enumeration, any folder's child enumeration, or a details content fetch —
the first failing remote call aborts the whole aggregation), the handler
answers with a single 500 carrying the upstream error message, and never
with a (partial) record list; `part_000`'s catch-less route instead lets
the rejection escape and sends no 500. -/
theorem c7_strict_single_500 (rm : RemoteF) (rootId m : String)
    (h : listPartsE_part001 rm rootId = .error m) :
    handleParts_part001 rm rootId = .error 500 m
    ∧ ∀ ps, handleParts_part001 rm rootId ≠ .json ps := by
  constructor
  · simp [handleParts_part001, h]
  · intro ps
    simp [handleParts_part001, h]

/-- C7, witness: with listings served normally but every content fetch
failing with `disk failure`, the request is answered by a single
`500 disk failure`. -/
theorem c7_witness :
    handleParts_part001 rmFetchFails "root" =
      PartsResponse.error 500 "disk failure" :=
  (c7_strict_single_500 rmFetchFails "root" "disk failure" rfl).1

/-- C8: the output order of `part_001`'s `/api/parts` equals the order of
the folders in the remote root listing — the handler applies no sort of
its own. -/
theorem c8_output_order_follows_listing (rs : Remote) (rootId : String) :
    (listParts_part001 rs rootId).map (fun r => (r.id, r.name)) =
      (runListQuery rs (rootQuery_part001 rootId)).map (fun e => (e.id, e.name)) := by
  simp only [listParts_part001, List.map_map]
  congr 1

/-- C10: a child whose content-type starts with `image/` is never selected
as the details candidate — the image branch is checked first, excluding
image-typed children from both the name-based rule and the plain-text
fallback. -/
theorem c10_image_child_never_details (files : List DriveFile) (f : DriveFile)
    (h : (classify files).detailsFile = some f) : isImage f = false := by
  rw [classify_detailsFile_eq, detailsCandidateSpec] at h
  rcases hl : lastWith namedPred files with _ | g
  · rw [hl, Option.none_or] at h
    have hp := List.find?_some h
    simp [plainPred, Bool.and_eq_true] at hp
    exact hp.1.1
  · rw [hl, Option.or_some] at h
    cases h
    have hg := List.find?_some hl
    simp [namedPred, Bool.and_eq_true] at hg
    exact hg.1

/-- C10, witness: with an image-typed child named `details.png` present,
the details candidate is the plain-text `readme.txt`, which is not
image-typed. -/
theorem c10_witness : isImage fileC10 = false :=
  c10_image_child_never_details filesC10 fileC10 (by decide)

/-- C9: in `POST /api/delete`, a missing (JS-falsy: absent or empty)
`folderId` yields 400 with no remote call; otherwise exactly one metadata
update marking the folder trashed is attempted — never a hard delete — and
the handler answers `{success}` (200) when the remote accepts it and 500
with the upstream message when the remote rejects it. -/
theorem c9_delete_soft_and_validated (folderId : Option String)
    (update : String → Except String Unit) :
    (truthyStr folderId = false →
      handleDelete_part001 folderId update = (.badRequest "folderId required", []))
    ∧ (∀ s, folderId = some s → s ≠ "" →
        (handleDelete_part001 folderId update).2 = [RemoteCall.updateTrashed s]
        ∧ (update s = .ok () →
            (handleDelete_part001 folderId update).1 = .success)
        ∧ (∀ m, update s = .error m →
            (handleDelete_part001 folderId update).1 = .failure m)
        ∧ RemoteCall.hardDelete s ∉ (handleDelete_part001 folderId update).2) := by
  constructor
  · intro h
    simp [handleDelete_part001, h]
  · intro s hfs hs
    subst hfs
    have ht : truthyStr (some s) = true := by simp [truthyStr, hs]
    rcases hu : update s with u | m
    · refine ⟨?_, ?_, ?_, ?_⟩ <;> simp [handleDelete_part001, ht, hu]
    · refine ⟨?_, ?_, ?_, ?_⟩ <;> simp [handleDelete_part001, ht, hu]

/-- C9, witness: deleting folder `abc` against an accepting remote issues
the single trash-marking update and succeeds. -/
theorem c9_witness :
    (handleDelete_part001 (some "abc") updateAccepts).1 = DeleteResponse.success :=
  (((c9_delete_soft_and_validated (some "abc") updateAccepts).2 "abc" rfl
      (by decide)).2.1) rfl
